import Mathlib

/-!
Verification of the webhook-triggered deployment orchestrator in `src/main.py`
against its natural-language specification.

The Python program is shallowly embedded: pure helpers become Lean functions,
the stateful webhook handler becomes explicit state passing over an `Effects`
record, external collaborators (token endpoint, subprocesses, comment API,
SMTP relay) are modelled by an `Env` record of oracles, and Python exceptions
become `Except PyError`. Machine integers are `Nat` with explicit reduction
modulo 2 ^ 32 where the SHA-256 arithmetic wraps.
-/

namespace PrBot

/-! ### 32-bit words as `Nat`

`hmac.new(..., digestmod=hashlib.sha256)` in `verify_signature` is modelled by
a full HMAC-SHA256 implementation. Bitwise operations are written with
division and remainder only, so that the kernel can evaluate them fast. -/

/-- Reduce a natural number to a 32-bit word. -/
def w32 (n : Nat) : Nat := n % 4294967296

/-- Bitwise AND of the low `fuel` bits, written with division and remainder
only so that evaluation stays cheap. -/
def bitsAnd : Nat → Nat → Nat → Nat
  | 0, _, _ => 0
  | fuel + 1, a, b => a % 2 * (b % 2) + 2 * bitsAnd fuel (a / 2) (b / 2)

/-- Bitwise XOR of the low `fuel` bits. -/
def bitsXor : Nat → Nat → Nat → Nat
  | 0, _, _ => 0
  | fuel + 1, a, b => (a % 2 + b % 2) % 2 + 2 * bitsXor fuel (a / 2) (b / 2)

/-- Bitwise AND on 32-bit words. -/
def land32 (a b : Nat) : Nat := bitsAnd 32 a b

/-- Bitwise XOR on 32-bit words. -/
def lxor32 (a b : Nat) : Nat := bitsXor 32 a b

/-- Bitwise XOR on bytes (used by the HMAC inner and outer pads). -/
def lxor8 (a b : Nat) : Nat := bitsXor 8 a b

/-- Bitwise complement of a 32-bit word. -/
def lnot32 (a : Nat) : Nat := 4294967295 - w32 a

/-- Right rotation of a 32-bit word by `n` places. -/
def rotr (x n : Nat) : Nat := w32 (x / 2 ^ n + x % 2 ^ n * 2 ^ (32 - n))

/-! ### SHA-256 -/

/-- SHA-256 choice function. -/
def sha256Ch (e f g : Nat) : Nat := lxor32 (land32 e f) (land32 (lnot32 e) g)

/-- SHA-256 majority function. -/
def sha256Maj (a b c : Nat) : Nat :=
  lxor32 (lxor32 (land32 a b) (land32 a c)) (land32 b c)

/-- SHA-256 big sigma 0. -/
def bigS0 (a : Nat) : Nat := lxor32 (lxor32 (rotr a 2) (rotr a 13)) (rotr a 22)

/-- SHA-256 big sigma 1. -/
def bigS1 (e : Nat) : Nat := lxor32 (lxor32 (rotr e 6) (rotr e 11)) (rotr e 25)

/-- SHA-256 small sigma 0. -/
def smallS0 (x : Nat) : Nat := lxor32 (lxor32 (rotr x 7) (rotr x 18)) (x / 2 ^ 3)

/-- SHA-256 small sigma 1. -/
def smallS1 (x : Nat) : Nat := lxor32 (lxor32 (rotr x 17) (rotr x 19)) (x / 2 ^ 10)

/-- The eight 32-bit working registers of SHA-256. -/
structure H8 where
  a : Nat
  b : Nat
  c : Nat
  d : Nat
  e : Nat
  f : Nat
  g : Nat
  h : Nat
deriving Repr, DecidableEq

/-- The 64 SHA-256 round constants of FIPS 180-4, in decimal. -/
def sha256K : List Nat :=
  [1116352408, 1899447441, 3049323471, 3921009573, 961987163, 1508970993,
   2453635748, 2870763221, 3624381080, 310598401, 607225278, 1426881987,
   1925078388, 2162078206, 2614888103, 3248222580, 3835390401, 4022224774,
   264347078, 604807628, 770255983, 1249150122, 1555081692, 1996064986,
   2554220882, 2821834349, 2952996808, 3210313671, 3336571891, 3584528711,
   113926993, 338241895, 666307205, 773529912, 1294757372, 1396182291,
   1695183700, 1986661051, 2177026350, 2456956037, 2730485921, 2820302411,
   3259730800, 3345764771, 3516065817, 3600352804, 4094571909, 275423344,
   430227734, 506948616, 659060556, 883997877, 958139571, 1322822218,
   1537002063, 1747873779, 1955562222, 2024104815, 2227730452, 2361852424,
   2428436474, 2756734187, 3204031479, 3329325298]

/-- The SHA-256 initial hash value of FIPS 180-4, in decimal. -/
def sha256InitH : H8 :=
  ⟨1779033703, 3144134277, 1013904242, 2773480762, 1359893119, 2600822924,
   528734635, 1541459225⟩

/-- One SHA-256 compression round; `kw` is the round constant plus the
schedule word, already reduced mod 2 ^ 32. -/
def sha256Round (s : H8) (kw : Nat) : H8 :=
  let t1 := w32 (s.h + bigS1 s.e + sha256Ch s.e s.f s.g + kw)
  let t2 := w32 (bigS0 s.a + sha256Maj s.a s.b s.c)
  ⟨w32 (t1 + t2), s.a, s.b, s.c, w32 (s.d + t1), s.e, s.f, s.g⟩

/-- Group a byte list into big-endian 32-bit words. -/
def bytesToWords : List Nat → List Nat
  | b0 :: b1 :: b2 :: b3 :: rest =>
      (((b0 * 256 + b1) * 256 + b2) * 256 + b3) :: bytesToWords rest
  | _ => []

/-- Extend the 16 block words by `n` further schedule words. -/
def extendW : List Nat → Nat → List Nat
  | ws, 0 => ws
  | ws, n + 1 =>
      let len := ws.length
      let nw := w32 (smallS1 (ws.getD (len - 2) 0) + ws.getD (len - 7) 0 +
                     smallS0 (ws.getD (len - 15) 0) + ws.getD (len - 16) 0)
      extendW (ws ++ [nw]) n

/-- Process one 64-byte block. -/
def processBlock (hs : H8) (block : List Nat) : H8 :=
  let ws := extendW (bytesToWords block) 48
  let kws := List.zipWith (fun k w => w32 (k + w)) sha256K ws
  let s := kws.foldl sha256Round hs
  ⟨w32 (hs.a + s.a), w32 (hs.b + s.b), w32 (hs.c + s.c), w32 (hs.d + s.d),
   w32 (hs.e + s.e), w32 (hs.f + s.f), w32 (hs.g + s.g), w32 (hs.h + s.h)⟩

/-- Big-endian 8-byte encoding of `n`. -/
def beBytes8 (n : Nat) : List Nat :=
  (List.range 8).map fun i => n / 2 ^ (8 * (7 - i)) % 256

/-- Big-endian 4-byte encoding of `n`. -/
def beBytes4 (n : Nat) : List Nat :=
  (List.range 4).map fun i => n / 2 ^ (8 * (3 - i)) % 256

/-- SHA-256 padding: append 0x80, zero bytes, and the 8-byte bit length. -/
def padMessage (msg : List Nat) : List Nat :=
  let L := msg.length
  msg ++ [128] ++ List.replicate ((64 - (L + 9) % 64) % 64) 0 ++ beBytes8 (L * 8)

/-- Split a byte list into 64-byte chunks (fuelled recursion). -/
def chunks64Aux : Nat → List Nat → List (List Nat)
  | 0, _ => []
  | _, [] => []
  | fuel + 1, l => l.take 64 :: chunks64Aux fuel (l.drop 64)

/-- Split a byte list into 64-byte chunks. -/
def chunks64 (l : List Nat) : List (List Nat) := chunks64Aux l.length l

/-- Serialise the final state as the 32-byte digest. -/
def h8ToBytes (s : H8) : List Nat :=
  beBytes4 s.a ++ beBytes4 s.b ++ beBytes4 s.c ++ beBytes4 s.d ++
  beBytes4 s.e ++ beBytes4 s.f ++ beBytes4 s.g ++ beBytes4 s.h

/-- SHA-256 of a byte list. -/
def sha256 (msg : List Nat) : List Nat :=
  h8ToBytes ((chunks64 (padMessage msg)).foldl processBlock sha256InitH)

/-! ### HMAC-SHA256 and the hex digest -/

/-- Normalise an HMAC key to the 64-byte block size. -/
def hmacKeyNorm (key : List Nat) : List Nat :=
  let k := if key.length > 64 then sha256 key else key
  k ++ List.replicate (64 - k.length) 0

/-- HMAC-SHA256 of `msg` under `key` (both byte lists); this is the
`hmac.new(WEBHOOK_SECRET.encode(), msg=payload, digestmod=hashlib.sha256)`
computation of `verify_signature`. -/
def hmac_sha256 (key msg : List Nat) : List Nat :=
  let k := hmacKeyNorm key
  let ipadK := k.map fun b => lxor8 b 54
  let opadK := k.map fun b => lxor8 b 92
  sha256 (opadK ++ sha256 (ipadK ++ msg))

/-- Lowercase hex character for a value below 16. -/
def hexChar (n : Nat) : Char :=
  if n < 10 then Char.ofNat (48 + n) else Char.ofNat (87 + n)

/-- Two lowercase hex characters for one byte. -/
def byteHex (b : Nat) : String :=
  String.mk [hexChar (b / 16 % 16), hexChar (b % 16)]

/-- Lowercase hex digest of a byte list, as produced by `mac.hexdigest()`. -/
def hexdigest (bytes : List Nat) : String :=
  String.join (bytes.map byteHex)

/-- Model of `hmac.compare_digest` on strings: a constant-time comparison
whose result is plain equality. -/
def compare_digest (a b : String) : Bool := a == b

/-- `verify_signature(payload, signature)` from `src/main.py` lines 47-52.
`secret` is `WEBHOOK_SECRET.encode()`; `payload` is the raw request body as
bytes; `signature` is the optional `X-Hub-Signature-256` header. Python
treats both `None` and the empty string as falsy in `if not signature`. -/
def verify_signature (secret payload : List Nat) (signature : Option String) : Bool :=
  match signature with
  | none => false
  | some sig =>
      if sig == "" then false
      else compare_digest ("sha256=" ++ hexdigest (hmac_sha256 secret payload)) sig

/-! ### Configuration and the JWT model

The configuration values are read once from the environment at startup
(`src/main.py` lines 30-45); the private key is loaded once from
`PRIVATE_KEY_PATH`. They are modelled as an immutable record. -/

/-- Process configuration, loaded once at startup. `WEBHOOK_SECRET` is kept
as its byte encoding, since `verify_signature` only ever uses
`WEBHOOK_SECRET.encode()`; `private_key` stands for the key object loaded
from `PRIVATE_KEY_PATH` at startup. -/
structure Config where
  WEBHOOK_SECRET : List Nat
  APP_ID : String
  private_key : String
  SMTP_USERNAME : String
  RECIPIENT_EMAIL : String
deriving Repr

/-- The claim set of the GitHub App JWT built by `get_jwt_token`. -/
structure JwtClaims where
  iat : Nat
  exp : Nat
  iss : String
deriving Repr, DecidableEq

/-- A signed JWT as produced by `jwt.encode(payload, private_key,
algorithm=RS256)`: the claim set together with the signing key and the
algorithm name. The cryptographic encoding itself is external library code. -/
structure Jwt where
  claims : JwtClaims
  key : String
  alg : String
deriving Repr, DecidableEq

/-- `get_jwt_token()` from `src/main.py` lines 54-63. `current_time` is
`int(time.time())` at the moment of the call. -/
def get_jwt_token (cfg : Config) (current_time : Nat) : Jwt :=
  { claims := { iat := current_time, exp := current_time + 10 * 60, iss := cfg.APP_ID },
    key := cfg.private_key,
    alg := "RS256" }

/-! ### Effects, errors and the external environment -/

/-- One step row of the `details` dict: a status string and a message. -/
structure StepDetail where
  status : String
  message : String
deriving Repr, DecidableEq

/-- The ordered `details` mapping from step label to status and message. -/
abbrev Details := List (String × StepDetail)

/-- A comment posted through the GitHub issues API. -/
structure Comment where
  url : String
  body : String
  token : String
deriving Repr, DecidableEq

/-- An email delivered by `send_email`. -/
structure Email where
  from_addr : String
  to_addr : String
  subject : String
  body : String
  attachment : String
deriving Repr, DecidableEq

/-- The observable side effects of handling one request: log file openings
and writes, posted comments, `logger.error` lines, delivered emails, token
exchange calls, and subprocess invocations, each in order of occurrence. -/
structure Effects where
  logsOpened : List String
  logWrites : List (String × String)
  comments : List Comment
  loggedErrors : List String
  emails : List Email
  tokenCalls : Nat
  scripts : List (String × String × String)
deriving Repr, DecidableEq

/-- The empty effect record at the start of a request. -/
def Effects.empty : Effects := ⟨[], [], [], [], [], 0, []⟩

/-- Python exceptions that can escape the modelled calls. -/
inductive PyError where
  | nameError : String → PyError
  | httpError : Nat → PyError
  | smtpError : String → PyError
deriving Repr, DecidableEq

/-- Rendering of an exception in a log line. -/
def pyErrStr : PyError → String
  | .nameError n => "name " ++ n ++ " is not defined"
  | .httpError c => "HTTP " ++ toString c
  | .smtpError m => m

/-- Outcomes of the three SMTP stages used by `send_email`: connect plus
starttls, login, and sendmail. -/
structure SmtpEnv where
  connect : Except String Unit
  login : Except String Unit
  send : Except String Unit

/-- True when some SMTP stage fails. -/
def smtp_has_failure (s : SmtpEnv) : Bool :=
  !s.connect.isOk || !s.login.isOk || !s.send.isOk

/-- The first SMTP failure message, in stage order. -/
def smtp_first_error (s : SmtpEnv) : String :=
  match s.connect with
  | .error e => e
  | .ok _ =>
    match s.login with
    | .error e => e
    | .ok _ =>
      match s.send with
      | .error e => e
      | .ok _ => ""

/-- The external world of one request: configuration, the wall clock, the
token issuance endpoint, the two subprocess entry points, the HTTP status
returned for the n-th comment post, and the SMTP relay. `deployRun` returns
the captured stdout on exit 0 and the captured stderr of the
CalledProcessError on non-zero exit. `cleanupRun` returns the exit success
flag and the combined output the subprocess writes into the opened log file
(its stdout and stderr are redirected there). -/
structure Env where
  cfg : Config
  currentTime : Nat
  tokenExchange : Nat → Except PyError String
  deployRun : String → String → Except String String
  cleanupRun : String → String → Bool × String
  commentStatus : Nat → Nat
  smtp : SmtpEnv

/-- `get_installation_access_token(installation_id)` from `src/main.py`
lines 65-77: mint a JWT, call the token endpoint, `raise_for_status`, return
the token. The effect record counts the exchange call. -/
def get_installation_access_token (env : Env) (eff : Effects) (installation_id : Nat) :
    Effects × Except PyError String :=
  let _jwt_token := get_jwt_token env.cfg env.currentTime
  ({ eff with tokenCalls := eff.tokenCalls + 1 }, env.tokenExchange installation_id)

/-! ### The notifier -/

/-- The Markdown table rendering of `notify_stakeholders` for a `details`
argument: header row, separator, and one row per step. -/
def detailsTable (d : Details) : String :=
  d.foldl
    (fun acc p =>
      acc ++ "| " ++ p.1 ++ " | " ++ p.2.status ++ " | " ++ p.2.message ++ " |\n")
    "| Step | Status | Details |\n|------|--------|---------|\n"

/-- The comment body built by `notify_stakeholders`: the message, plus the
rendered table when `details` is given. -/
def renderMessage (message : String) (details : Option Details) : String :=
  match details with
  | none => message
  | some d => message ++ "\n\n" ++ detailsTable d

/-- `notify_stakeholders(comment_url, message, access_token, details)` from
`src/main.py` lines 141-154. The comment post is modelled by recording the
comment and reading the environment-determined HTTP status for this call; a
non-201 status is logged with `logger.error` and the function returns
normally either way, so comment delivery failure never raises. -/
def notify_stakeholders (env : Env) (eff : Effects)
    (comment_url message access_token : String) (details : Option Details) : Effects :=
  let body := renderMessage message details
  let status := env.commentStatus eff.comments.length
  let eff := { eff with comments := eff.comments ++ [⟨comment_url, body, access_token⟩] }
  if status != 201 then
    { eff with loggedErrors := eff.loggedErrors ++ ["Failed to comment on PR"] }
  else eff

/-! ### The action runner -/

/-- Python `str()` of an optional extraction result, as interpolated by the
f-strings of the success details: `None` when the pattern was absent. -/
def pyStr : Option String → String
  | none => "None"
  | some s => s

/-- Python whitespace as matched by the regex class `\s`. -/
def isPySpace (c : Char) : Bool :=
  c.toNat == 32 || c.toNat == 9 || c.toNat == 10 ||
  c.toNat == 13 || c.toNat == 11 || c.toNat == 12

/-- The maximal leading run of non-whitespace characters: the greedy match
of the regex piece matching one or more non-space characters. -/
def nonSpaceRun (cs : List Char) : List Char := cs.takeWhile fun c => !isPySpace c

/-- Leftmost match of the pattern `lit` followed by one or more non-space
characters, returning that non-space group, as `re.search` does: try each
position from the left; where the literal matches but no non-space character
follows, keep searching further right. -/
def searchGroup : List Char → List Char → Option (List Char)
  | _, [] => none
  | lit, c :: rest =>
    if lit.isPrefixOf (c :: rest) then
      let grp := nonSpaceRun ((c :: rest).drop lit.length)
      if grp.isEmpty then searchGroup lit rest else some grp
    else searchGroup lit rest

/-- The group of `re.search` with pattern `Container name:` space, then a
parenthesised run of one or more non-space characters, over the captured
stdout. -/
def extract_container_name (stdout : String) : Option String :=
  (searchGroup "Container name: ".toList stdout.toList).map fun g => String.mk g

/-- The group of `re.search` with pattern `Deployment complete:` space, then
a parenthesised `http://` followed by one or more non-space characters; the
group includes the `http://` scheme. -/
def extract_deployment_url (stdout : String) : Option String :=
  (searchGroup "Deployment complete: http://".toList stdout.toList).map
    fun g => String.mk ("http://".toList ++ g)

/-- The five fixed success rows written into `details` on the exit-0 branch
of `run_deployment_script` (`src/main.py` lines 171-175); the last two
interpolate the extraction results, rendering `None` when absent. -/
def deployment_success_details (branch_name : String)
    (container_name deployment_url : Option String) : Details :=
  [("Clone repository", ⟨"Success", "Repository cloned successfully."⟩),
   ("Checkout branch", ⟨"Success", "Checked out branch " ++ branch_name ++ "."⟩),
   ("Pull latest changes",
      ⟨"Success", "Pulled latest changes for branch " ++ branch_name ++ "."⟩),
   ("Build Docker image",
      ⟨"Success", "Docker image built successfully for container " ++
        pyStr container_name ++ "."⟩),
   ("Run Docker container",
      ⟨"Success", "Container " ++ pyStr container_name ++ " running at " ++
        pyStr deployment_url ++ "."⟩)]

/-- The single failure row written into `details` on the non-zero-exit
branch of `run_deployment_script` (`src/main.py` line 183). -/
def deployment_failure_details (stderr : String) : Details :=
  [("Deployment script", ⟨"Failed", stderr⟩)]

/-- `run_deployment_script(branch_name, pr_number)` from `src/main.py`
lines 156-185. Both branches build their `details` dict and then evaluate
`notify_stakeholders(comment_url, ..., access_token, details)`; but
`comment_url` and `access_token` are local variables of `webhook` and no
binding for either name exists in the scope of this function or at module
level, so evaluating the first argument raises `NameError` and the function
never reaches its `return` statement. The log file writes before that point
do happen. -/
def run_deployment_script (env : Env) (eff : Effects) (branch_name : String)
    (pr_number : Nat) : Effects × Except PyError (Option String × Option String × String) :=
  let log_file_path := "/tmp/deployment_log_" ++ branch_name ++ "_" ++
    toString pr_number ++ ".txt"
  let eff := { eff with
    logsOpened := eff.logsOpened ++ [log_file_path],
    scripts := eff.scripts ++ [("./deploy.sh", branch_name, toString pr_number)] }
  match env.deployRun branch_name (toString pr_number) with
  | .ok stdout =>
    let eff := { eff with logWrites := eff.logWrites ++ [(log_file_path, stdout)] }
    let container_name := extract_container_name stdout
    let deployment_url := extract_deployment_url stdout
    let _details := deployment_success_details branch_name container_name deployment_url
    (eff, .error (.nameError "comment_url"))
  | .error stderr =>
    let eff := { eff with
      logWrites := eff.logWrites ++
        [(log_file_path, "Deployment script failed with error: " ++ stderr)],
      loggedErrors := eff.loggedErrors ++
        ["Deployment script failed with error: " ++ stderr] }
    let _details := deployment_failure_details stderr
    (eff, .error (.nameError "comment_url"))

/-- `run_cleanup_script(branch_name, pr_number)` from `src/main.py`
lines 187-202. The subprocess writes its output straight into the opened log
file. On failure, `e.stderr` is the Python value `None` because stderr was
redirected to the log file, and the f-string renders it as the text `None`.
Both branches then evaluate `notify_stakeholders(comment_url, ...,
access_token, details)` and raise `NameError` exactly as in
`run_deployment_script`, so this function never reaches its `return`. -/
def run_cleanup_script (env : Env) (eff : Effects) (branch_name : String)
    (pr_number : Nat) : Effects × Except PyError String :=
  let log_file_path := "/tmp/cleanup_log_" ++ branch_name ++ "_" ++
    toString pr_number ++ ".txt"
  let eff := { eff with
    logsOpened := eff.logsOpened ++ [log_file_path],
    scripts := eff.scripts ++ [("./cleanup.sh", branch_name, toString pr_number)] }
  match env.cleanupRun branch_name (toString pr_number) with
  | (true, out) =>
    let eff := { eff with logWrites := eff.logWrites ++ [(log_file_path, out)] }
    let _details : Details :=
      [("Cleanup script", ⟨"Success", "Cleanup script executed successfully."⟩)]
    (eff, .error (.nameError "comment_url"))
  | (false, out) =>
    let eff := { eff with
      logWrites := eff.logWrites ++ [(log_file_path, out),
        (log_file_path, "Cleanup script failed with error: None")],
      loggedErrors := eff.loggedErrors ++ ["Cleanup script failed with error: None"] }
    let _details : Details := [("Cleanup script", ⟨"Failed", "None"⟩)]
    (eff, .error (.nameError "comment_url"))

/-! ### The mailer -/

/-- `send_email(to_address, subject, body, attachment_path)` from
`src/main.py` lines 204-225: build the multipart message with the log file
attached, connect to the relay, starttls, login, send, quit. The function
contains no exception handling, so a failure at any SMTP stage propagates to
the caller; only when all stages succeed is the email delivered. -/
def send_email (env : Env) (eff : Effects)
    (to_address subject body attachment_path : String) : Effects × Except PyError Unit :=
  let from_address := env.cfg.SMTP_USERNAME
  match env.smtp.connect with
  | .error e => (eff, .error (.smtpError e))
  | .ok _ =>
    match env.smtp.login with
    | .error e => (eff, .error (.smtpError e))
    | .ok _ =>
      match env.smtp.send with
      | .error e => (eff, .error (.smtpError e))
      | .ok _ =>
        ({ eff with emails := eff.emails ++
            [⟨from_address, to_address, subject, body, attachment_path⟩] }, .ok ())

/-! ### The webhook dispatcher -/

/-- The inbound pull request object: number, head ref, and the `merged`
field, which the handler never reads. -/
structure PullRequest where
  number : Nat
  headRef : String
  merged : Option Bool
deriving Repr, DecidableEq

/-- The parsed JSON payload, restricted to the keys the handler uses. -/
structure Payload where
  action : Option String
  pull_request : Option PullRequest
  repository_full_name : String
  installation_id : Nat
deriving Repr, DecidableEq

/-- An HTTP response: the `message` field of the JSON body, and the status
code. -/
structure HttpResponse where
  message : String
  code : Nat
deriving Repr, DecidableEq

/-- The membership test `action in [opened, synchronize, reopened]` of
`src/main.py` line 94. -/
def deployActionTest (action : Option String) : Bool :=
  action == some "opened" || action == some "synchronize" || action == some "reopened"

/-- Appending the `logger.error` line of the deploy except-handler. -/
def logDeployFail (eff : Effects) (e : PyError) : Effects :=
  { eff with loggedErrors := eff.loggedErrors ++ ["Deployment failed: " ++ pyErrStr e] }

/-- Appending the `logger.error` line of the cleanup except-handler. -/
def logCleanupFail (eff : Effects) (e : PyError) : Effects :=
  { eff with loggedErrors := eff.loggedErrors ++ ["Cleanup failed: " ++ pyErrStr e] }

/-- The final deploy comment selection of `src/main.py` lines 107-110: it
reads only the returned deployment link; a present link yields the success
message embedding the link, an absent link yields the generic failure
notice. -/
def deployment_message : Option String → String
  | some link => "Deployment successful. [Deployed application](" ++ link ++ ")."
  | none => "Deployment failed. Please check the logs."

/-- The deploy try-block of `webhook` (`src/main.py` lines 95-119): token,
comment URL, start comment, deployment script, final comment chosen from the
returned link, deployment log email; any exception is logged and turned into
HTTP 500 with body message `Deployment failed`. -/
def deploy_path (env : Env) (pr_number : Nat) (repo_name branch_name : String)
    (installation_id : Nat) : Effects × HttpResponse :=
  let (eff0, tok) := get_installation_access_token env Effects.empty installation_id
  match tok with
  | .error e => (logDeployFail eff0 e, ⟨"Deployment failed", 500⟩)
  | .ok access_token =>
    let comment_url := "https://api.github.com/repos/" ++ repo_name ++ "/issues/" ++
      toString pr_number ++ "/comments"
    let eff1 := notify_stakeholders env eff0 comment_url
      "Deployment started for this pull request." access_token none
    let (eff2, res) := run_deployment_script env eff1 branch_name pr_number
    match res with
    | .error e => (logDeployFail eff2 e, ⟨"Deployment failed", 500⟩)
    | .ok (_container_name, deployment_link, log_file_path) =>
      let eff3 := notify_stakeholders env eff2 comment_url
        (deployment_message deployment_link) access_token none
      let (eff4, mres) := send_email env eff3 env.cfg.RECIPIENT_EMAIL "Deployment Log"
        "Please find the attached deployment log." log_file_path
      match mres with
      | .error e => (logDeployFail eff4 e, ⟨"Deployment failed", 500⟩)
      | .ok _ => (eff4, ⟨"Deployment processed", 200⟩)

/-- The cleanup try-block of `webhook` (`src/main.py` lines 122-137):
cleanup script, token, `Cleanup completed` comment, cleanup log email; any
exception is logged and turned into HTTP 500 with body message
`Cleanup failed`. -/
def cleanup_path (env : Env) (pr_number : Nat) (repo_name branch_name : String)
    (installation_id : Nat) : Effects × HttpResponse :=
  let (eff0, res) := run_cleanup_script env Effects.empty branch_name pr_number
  match res with
  | .error e => (logCleanupFail eff0 e, ⟨"Cleanup failed", 500⟩)
  | .ok log_file_path =>
    let (eff1, tok) := get_installation_access_token env eff0 installation_id
    match tok with
    | .error e => (logCleanupFail eff1 e, ⟨"Cleanup failed", 500⟩)
    | .ok access_token =>
      let comment_url := "https://api.github.com/repos/" ++ repo_name ++ "/issues/" ++
        toString pr_number ++ "/comments"
      let eff2 := notify_stakeholders env eff1 comment_url
        "Cleanup completed for this pull request." access_token none
      let (eff3, mres) := send_email env eff2 env.cfg.RECIPIENT_EMAIL "Cleanup Log"
        "Please find the attached cleanup log." log_file_path
      match mres with
      | .error e => (logCleanupFail eff3 e, ⟨"Cleanup failed", 500⟩)
      | .ok _ => (eff3, ⟨"Cleanup processed", 200⟩)

/-- The `webhook()` handler from `src/main.py` lines 79-139. `rawBody` is the
raw request body bytes, `signature` the optional `X-Hub-Signature-256`
header, `data` the parsed JSON payload. A failed signature check returns 401
with body message `Invalid signature` before anything else happens; then the
payload is classified by the presence of `pull_request` and by `action`, and
unrecognised events return 200 with body message `No action taken` without
any external call. -/
def webhook (env : Env) (rawBody : List Nat) (signature : Option String)
    (data : Payload) : Effects × HttpResponse :=
  if verify_signature env.cfg.WEBHOOK_SECRET rawBody signature then
    match data.pull_request with
    | some pr =>
      if deployActionTest data.action then
        deploy_path env pr.number data.repository_full_name pr.headRef data.installation_id
      else if data.action == some "closed" then
        cleanup_path env pr.number data.repository_full_name pr.headRef data.installation_id
      else (Effects.empty, ⟨"No action taken", 200⟩)
    | none => (Effects.empty, ⟨"No action taken", 200⟩)
  else (Effects.empty, ⟨"Invalid signature", 401⟩)

/-! ### Shared helper lemmas -/

set_option maxRecDepth 100000 in
set_option maxHeartbeats 1000000 in
/-- Sanity anchor: the SHA-256 embedding reproduces the FIPS 180-4 one-block
test vector for the three-byte message abc. -/
theorem sha256_abc_vector :
    hexdigest (sha256 [97, 98, 99])
      = "ba7816bf8f01cfea414140de5dae2223b00361a396177a9cb410ff61f20015ad" := by
  decide

/-- A string starting with the scheme marker is never empty. -/
theorem sha_prefixed_ne_empty (s : String) : ("sha256=" ++ s) ≠ "" := by
  intro h
  have h2 : ("sha256=" ++ s).data = ("" : String).data := by rw [h]
  rw [String.data_append] at h2
  simp at h2

/-- Verification succeeds on the correctly computed signature header. -/
theorem verify_correct_sig (secret payload : List Nat) :
    verify_signature secret payload
      (some ("sha256=" ++ hexdigest (hmac_sha256 secret payload))) = true := by
  have hne := sha_prefixed_ne_empty (hexdigest (hmac_sha256 secret payload))
  simp [verify_signature, compare_digest, hne]

/-- Verification fails on any signature other than the computed one. -/
theorem verify_wrong_sig (secret payload : List Nat) (sig : String)
    (h : sig ≠ "sha256=" ++ hexdigest (hmac_sha256 secret payload)) :
    verify_signature secret payload (some sig) = false := by
  by_cases he : sig = ""
  · simp [verify_signature, he]
  · simp [verify_signature, compare_digest, he, Ne.symm h]

/-- The deployment script runner always raises `NameError` for
`comment_url`, on both the exit-0 and the non-zero-exit branch. -/
theorem run_deployment_script_raises (env : Env) (eff : Effects) (b : String) (p : Nat) :
    (run_deployment_script env eff b p).2 = .error (.nameError "comment_url") := by
  unfold run_deployment_script
  cases env.deployRun b (toString p) <;> rfl

/-- The cleanup script runner always raises `NameError` for `comment_url`,
on both the success and the failure branch. -/
theorem run_cleanup_script_raises (env : Env) (eff : Effects) (b : String) (p : Nat) :
    (run_cleanup_script env eff b p).2 = .error (.nameError "comment_url") := by
  unfold run_cleanup_script
  rcases env.cleanupRun b (toString p) with ⟨flag, out⟩
  cases flag <;> rfl

/-- On the deploy path the response is always 500 `Deployment failed`, no
email is delivered, and every comment that is posted is the start notice. -/
theorem deploy_path_facts (env : Env) (n : Nat) (r b : String) (i : Nat) :
    (deploy_path env n r b i).2 = ⟨"Deployment failed", 500⟩
    ∧ (deploy_path env n r b i).1.emails = []
    ∧ ((deploy_path env n r b i).1.comments.all
        fun c => c.body == "Deployment started for this pull request.") = true := by
  rcases htok : env.tokenExchange i with e | tok
  · simp [deploy_path, get_installation_access_token, htok, Effects.empty, logDeployFail]
  · rcases hdep : env.deployRun b (toString n) with serr | sout <;>
      simp [deploy_path, get_installation_access_token, run_deployment_script,
        notify_stakeholders, logDeployFail, Effects.empty, renderMessage, htok, hdep] <;>
      split <;> simp

/-- On the cleanup path the response is always 500 `Cleanup failed`, no
email is delivered, no comment is posted, and no token exchange happens. -/
theorem cleanup_path_facts (env : Env) (n : Nat) (r b : String) (i : Nat) :
    (cleanup_path env n r b i).2 = ⟨"Cleanup failed", 500⟩
    ∧ (cleanup_path env n r b i).1.emails = []
    ∧ (cleanup_path env n r b i).1.comments = []
    ∧ (cleanup_path env n r b i).1.tokenCalls = 0 := by
  unfold cleanup_path run_cleanup_script
  rcases env.cleanupRun b (toString n) with ⟨flag, out⟩
  cases flag <;> simp [logCleanupFail, Effects.empty]

/-- The response of the handler, classified by signature validity, by the
presence of `pull_request`, and by the action. -/
theorem webhook_response_classified (env : Env) (rawBody : List Nat)
    (sig : Option String) (data : Payload)
    (hver : verify_signature env.cfg.WEBHOOK_SECRET rawBody sig = true) :
    (webhook env rawBody sig data).2 =
      (match data.pull_request with
       | some _ =>
         if deployActionTest data.action then ⟨"Deployment failed", 500⟩
         else if data.action == some "closed" then ⟨"Cleanup failed", 500⟩
         else ⟨"No action taken", 200⟩
       | none => ⟨"No action taken", 200⟩) := by
  unfold webhook
  rw [hver]
  simp only [eq_self_iff_true, if_true]
  cases data.pull_request with
  | none => rfl
  | some pr =>
    by_cases hd : deployActionTest data.action = true
    · simp [hd, (deploy_path_facts env pr.number data.repository_full_name pr.headRef
        data.installation_id).1]
    · by_cases hc : (data.action == some "closed") = true
      · simp [hd, hc, (cleanup_path_facts env pr.number data.repository_full_name pr.headRef
          data.installation_id).1]
      · simp [hd, hc]

/-- Every comment a deploy or cleanup request ever posts is the start
notice, and no email is ever delivered. -/
theorem webhook_deploy_cleanup_effects (env : Env) (rawBody : List Nat)
    (sig : Option String) (data : Payload) (pr : PullRequest)
    (hver : verify_signature env.cfg.WEBHOOK_SECRET rawBody sig = true)
    (hpr : data.pull_request = some pr)
    (hact : deployActionTest data.action = true ∨ data.action = some "closed") :
    (webhook env rawBody sig data).1.emails = []
    ∧ ((webhook env rawBody sig data).1.comments.all
        fun c => c.body == "Deployment started for this pull request.") = true := by
  unfold webhook
  rw [hver, hpr]
  simp only [eq_self_iff_true, if_true]
  rcases hact with hd | hc
  · simp only [hd, if_true]
    exact ⟨(deploy_path_facts env pr.number data.repository_full_name pr.headRef
        data.installation_id).2.1,
      (deploy_path_facts env pr.number data.repository_full_name pr.headRef
        data.installation_id).2.2⟩
  · have hd : deployActionTest data.action = false := by rw [hc]; rfl
    have hcb : (data.action == some "closed") = true := by rw [hc]; rfl
    simp only [hd, hcb, if_true, Bool.false_eq_true, if_false]
    refine ⟨(cleanup_path_facts env pr.number data.repository_full_name pr.headRef
        data.installation_id).2.1, ?_⟩
    rw [(cleanup_path_facts env pr.number data.repository_full_name pr.headRef
        data.installation_id).2.2.1]
    rfl

/-- On every validly signed deploy or closed event, the response code is 500
and the body message is the generic failure text of the path taken. -/
theorem webhook_deploy_cleanup_500 (env : Env) (rawBody : List Nat)
    (sig : Option String) (data : Payload) (pr : PullRequest)
    (hver : verify_signature env.cfg.WEBHOOK_SECRET rawBody sig = true)
    (hpr : data.pull_request = some pr)
    (hact : deployActionTest data.action = true ∨ data.action = some "closed") :
    (webhook env rawBody sig data).2.code = 500
    ∧ ((webhook env rawBody sig data).2.message = "Deployment failed"
        ∨ (webhook env rawBody sig data).2.message = "Cleanup failed") := by
  have hresp := webhook_response_classified env rawBody sig data hver
  rw [hpr] at hresp
  rcases hact with hd | hc
  · rw [hresp]
    simp [hd]
  · have hd : deployActionTest data.action = false := by rw [hc]; rfl
    have hcb : (data.action == some "closed") = true := by rw [hc]; rfl
    rw [hresp]
    simp [hd, hcb]

/-! ### Concrete fixtures shared by the witnesses -/

/-- Byte encoding of the shared webhook secret of the fixtures. -/
def testSecret : List Nat := [107, 101, 121]

/-- Raw request body bytes of the fixtures. -/
def testBody : List Nat := [104, 101, 108, 108, 111]

/-- The correctly computed signature header for `testBody` under
`testSecret`. -/
def testSigOk : Option String :=
  some ("sha256=" ++ hexdigest (hmac_sha256 testSecret testBody))

/-- Fixture configuration. -/
def testCfg : Config :=
  { WEBHOOK_SECRET := testSecret, APP_ID := "7", private_key := "PEMKEY",
    SMTP_USERNAME := "bot@example.com", RECIPIENT_EMAIL := "ops@example.com" }

/-- Captured stdout carrying both extraction patterns. -/
def outBoth : String :=
  "Container name: app-42\nDeployment complete: http://host:8042\n"

/-- Captured stdout whose deployment-URL pattern is absent. -/
def outNoUrl : String := "Container name: app-42\nDone.\n"

/-- Fixture environment in which every external collaborator succeeds and
the deploy action prints both patterns. -/
def testEnv : Env :=
  { cfg := testCfg, currentTime := 1700000000,
    tokenExchange := fun _ => .ok "tok",
    deployRun := fun _ _ => .ok outBoth,
    cleanupRun := fun _ _ => (true, "cleanup output"),
    commentStatus := fun _ => 201,
    smtp := { connect := .ok (), login := .ok (), send := .ok () } }

/-- Fixture payload for an opened pull request. -/
def testData : Payload :=
  { action := some "opened",
    pull_request := some { number := 42, headRef := "feature-x", merged := none },
    repository_full_name := "org/app", installation_id := 5 }

/-- The fixture signature header verifies. -/
theorem testSig_valid : verify_signature testSecret testBody testSigOk = true :=
  verify_correct_sig testSecret testBody

/-! ### The claims -/

/-- C1: for every raw body P and secret S, verification of the header
sha256= followed by the hex HMAC-SHA256 of P under S succeeds; a missing
header, and any signature other than the correct one, fails verification;
and on failed verification the handler returns HTTP 401 with body message
Invalid signature and performs no further processing (empty effects). -/
theorem C1_signature_verification (secret payload rawBody : List Nat) (sig : String)
    (env : Env) (s : Option String) (data : Payload)
    (hsig : sig ≠ "sha256=" ++ hexdigest (hmac_sha256 secret payload))
    (hver : verify_signature env.cfg.WEBHOOK_SECRET rawBody s = false) :
    verify_signature secret payload
        (some ("sha256=" ++ hexdigest (hmac_sha256 secret payload))) = true
    ∧ verify_signature secret payload none = false
    ∧ verify_signature secret payload (some sig) = false
    ∧ webhook env rawBody s data = (Effects.empty, ⟨"Invalid signature", 401⟩) := by
  refine ⟨verify_correct_sig secret payload, rfl,
    verify_wrong_sig secret payload sig hsig, ?_⟩
  unfold webhook
  rw [hver]
  rfl

/-- C1 witness at the concrete fixtures, with the empty string as the
incorrect signature and the missing header driving the 401 response. -/
theorem C1_signature_verification_witness :
    verify_signature testSecret testBody
        (some ("sha256=" ++ hexdigest (hmac_sha256 testSecret testBody))) = true
    ∧ verify_signature testSecret testBody none = false
    ∧ verify_signature testSecret testBody (some "") = false
    ∧ webhook testEnv testBody none testData = (Effects.empty, ⟨"Invalid signature", 401⟩) :=
  C1_signature_verification testSecret testBody testBody "" testEnv none testData
    (fun h => sha_prefixed_ne_empty _ h.symm) rfl

/-- C2: on every validly signed deploy or closed pull-request event, the
script runners raise NameError for the unbound name comment_url, so neither
ever returns normally, the blanket except-handler answers HTTP 500 with
Deployment failed or Cleanup failed, no email is sent, and no final
stakeholder comment is posted (every posted comment is the start notice). -/
theorem C2_unbound_names_always_500 (env : Env) (rawBody : List Nat)
    (sig : Option String) (data : Payload) (pr : PullRequest)
    (eff : Effects) (b : String) (p : Nat)
    (hver : verify_signature env.cfg.WEBHOOK_SECRET rawBody sig = true)
    (hpr : data.pull_request = some pr)
    (hact : deployActionTest data.action = true ∨ data.action = some "closed") :
    (run_deployment_script env eff b p).2 = .error (.nameError "comment_url")
    ∧ (run_cleanup_script env eff b p).2 = .error (.nameError "comment_url")
    ∧ (webhook env rawBody sig data).2.code = 500
    ∧ ((webhook env rawBody sig data).2.message = "Deployment failed"
        ∨ (webhook env rawBody sig data).2.message = "Cleanup failed")
    ∧ (webhook env rawBody sig data).1.emails = []
    ∧ ((webhook env rawBody sig data).1.comments.all
        fun c => c.body == "Deployment started for this pull request.") = true := by
  have heff := webhook_deploy_cleanup_effects env rawBody sig data pr hver hpr hact
  have h500 := webhook_deploy_cleanup_500 env rawBody sig data pr hver hpr hact
  exact ⟨run_deployment_script_raises env eff b p,
    run_cleanup_script_raises env eff b p, h500.1, h500.2, heff.1, heff.2⟩

/-- C2 witness: a validly signed opened event against the all-success
fixture environment. -/
theorem C2_unbound_names_always_500_witness :
    (run_deployment_script testEnv Effects.empty "feature-x" 42).2
        = .error (.nameError "comment_url")
    ∧ (run_cleanup_script testEnv Effects.empty "feature-x" 42).2
        = .error (.nameError "comment_url")
    ∧ (webhook testEnv testBody testSigOk testData).2.code = 500
    ∧ ((webhook testEnv testBody testSigOk testData).2.message = "Deployment failed"
        ∨ (webhook testEnv testBody testSigOk testData).2.message = "Cleanup failed")
    ∧ (webhook testEnv testBody testSigOk testData).1.emails = []
    ∧ ((webhook testEnv testBody testSigOk testData).1.comments.all
        fun c => c.body == "Deployment started for this pull request.") = true :=
  C2_unbound_names_always_500 testEnv testBody testSigOk testData
    { number := 42, headRef := "feature-x", merged := none }
    Effects.empty "feature-x" 42 testSig_valid rfl (Or.inl rfl)

/-- C7: every validly signed event whose payload lacks pull_request, or
whose action is none of opened, synchronize, reopened, closed, yields HTTP
200 with body message No action taken and the empty effect record (no token
exchange, no comment, no script invocation, no email). -/
theorem C7_unrecognized_events_noop (env : Env) (rawBody : List Nat)
    (sig : Option String) (data : Payload)
    (hver : verify_signature env.cfg.WEBHOOK_SECRET rawBody sig = true)
    (h : data.pull_request = none
        ∨ data.action ∉ [some "opened", some "synchronize", some "reopened",
            some "closed"]) :
    webhook env rawBody sig data = (Effects.empty, ⟨"No action taken", 200⟩) := by
  unfold webhook
  rw [hver]
  simp only [eq_self_iff_true, if_true]
  rcases h with hnone | hact
  · rw [hnone]
  · cases hdata : data.pull_request with
    | none => rfl
    | some pr =>
      simp only [List.mem_cons, List.mem_singleton] at hact
      push_neg at hact
      obtain ⟨h1, h2, h3, h4⟩ := hact
      have hd : deployActionTest data.action = false := by
        unfold deployActionTest
        simp [h1, h2, h3]
      have hc : (data.action == some "closed") = false := by simp [h4]
      simp [hd, hc]

/-- C7 witness: a validly signed event whose action is labeled but whose
payload carries no pull_request key. -/
theorem C7_unrecognized_events_noop_witness :
    webhook testEnv testBody testSigOk
        { action := some "labeled", pull_request := none,
          repository_full_name := "org/app", installation_id := 5 }
      = (Effects.empty, ⟨"No action taken", 200⟩) :=
  C7_unrecognized_events_noop testEnv testBody testSigOk
    { action := some "labeled", pull_request := none,
      repository_full_name := "org/app", installation_id := 5 }
    testSig_valid (Or.inl rfl)

/-- C9: the identity assertion minted at time t carries issued-at t, expiry
t plus 600 seconds, issuer the registered application id, and is signed with
the startup-loaded private key under RS256. -/
theorem C9_jwt_token_claims (cfg : Config) (t : Nat) :
    (get_jwt_token cfg t).claims.iat = t
    ∧ (get_jwt_token cfg t).claims.exp = t + 600
    ∧ (get_jwt_token cfg t).claims.iss = cfg.APP_ID
    ∧ (get_jwt_token cfg t).key = cfg.private_key
    ∧ (get_jwt_token cfg t).alg = "RS256" :=
  ⟨rfl, rfl, rfl, rfl, rfl⟩

/-- The fixture signature header verifies against the fixture environment
configuration. -/
theorem testEnv_sig_valid :
    verify_signature testEnv.cfg.WEBHOOK_SECRET testBody testSigOk = true :=
  testSig_valid

/-- Fixture environment whose SMTP connection stage fails. -/
def testEnvSmtpFail : Env :=
  { testEnv with smtp := { connect := .error "connection refused",
                           login := .ok (), send := .ok () } }

/-- Fixture environment whose deploy action exits non-zero with stderr
`boom`. -/
def testEnvDeployFail : Env :=
  { testEnv with deployRun := fun _ _ => .error "boom" }

/-- Fixture environment whose deploy action exits 0 but prints no
deployment-URL pattern. -/
def testEnvNoUrl : Env :=
  { testEnv with deployRun := fun _ _ => .ok outNoUrl }

/-- Fixture environment whose comment posts are answered with 404. -/
def testEnvComment404 : Env :=
  { testEnv with commentStatus := fun _ => 404 }

/-- A validly signed opened event dispatches to the deploy path. -/
theorem webhook_valid_opened (env : Env) (rawBody : List Nat) (sig : Option String)
    (pr : PullRequest) (repo : String) (iid : Nat)
    (hver : verify_signature env.cfg.WEBHOOK_SECRET rawBody sig = true) :
    webhook env rawBody sig
        { action := some "opened", pull_request := some pr,
          repository_full_name := repo, installation_id := iid }
      = deploy_path env pr.number repo pr.headRef iid := by
  unfold webhook
  rw [hver]
  rfl

/-- A validly signed closed event dispatches to the cleanup path. -/
theorem webhook_valid_closed (env : Env) (rawBody : List Nat) (sig : Option String)
    (pr : PullRequest) (repo : String) (iid : Nat)
    (hver : verify_signature env.cfg.WEBHOOK_SECRET rawBody sig = true) :
    webhook env rawBody sig
        { action := some "closed", pull_request := some pr,
          repository_full_name := repo, installation_id := iid }
      = cleanup_path env pr.number repo pr.headRef iid := by
  unfold webhook
  rw [hver]
  rfl

/-- C5: send_email contains no exception handling, so an SMTP connection,
authentication, or send failure propagates to the caller as an exception,
with no email recorded; and on the deploy and cleanup paths the handler
converts every exception into an HTTP 500 response. -/
theorem C5_mail_failure_fatal (env : Env) (eff : Effects)
    (toA subj body path : String) (rawBody : List Nat) (sig : Option String)
    (data : Payload) (pr : PullRequest)
    (hfail : smtp_has_failure env.smtp = true)
    (hver : verify_signature env.cfg.WEBHOOK_SECRET rawBody sig = true)
    (hpr : data.pull_request = some pr)
    (hact : deployActionTest data.action = true ∨ data.action = some "closed") :
    (send_email env eff toA subj body path).2
        = .error (.smtpError (smtp_first_error env.smtp))
    ∧ (send_email env eff toA subj body path).1.emails = eff.emails
    ∧ (webhook env rawBody sig data).2.code = 500 := by
  refine ⟨?_, ?_, (webhook_deploy_cleanup_500 env rawBody sig data pr hver hpr hact).1⟩
  · unfold send_email smtp_first_error
    rcases hc : env.smtp.connect with e | u
    · rfl
    · rcases hl : env.smtp.login with e | u
      · rfl
      · rcases hs : env.smtp.send with e | u
        · rfl
        · exfalso
          rw [smtp_has_failure, hc, hl, hs] at hfail
          simp [Except.isOk, Except.toBool] at hfail
  · unfold send_email
    rcases hc : env.smtp.connect with e | u
    · rfl
    · rcases hl : env.smtp.login with e | u
      · rfl
      · rcases hs : env.smtp.send with e | u
        · rfl
        · exfalso
          rw [smtp_has_failure, hc, hl, hs] at hfail
          simp [Except.isOk, Except.toBool] at hfail

/-- C5 witness: the connection-refused environment on a validly signed
opened event. -/
theorem C5_mail_failure_fatal_witness :
    (send_email testEnvSmtpFail Effects.empty "ops@example.com" "Deployment Log"
        "Please find the attached deployment log." "/tmp/x.txt").2
      = .error (.smtpError (smtp_first_error testEnvSmtpFail.smtp))
    ∧ (send_email testEnvSmtpFail Effects.empty "ops@example.com" "Deployment Log"
        "Please find the attached deployment log." "/tmp/x.txt").1.emails
      = Effects.empty.emails
    ∧ (webhook testEnvSmtpFail testBody testSigOk testData).2.code = 500 :=
  C5_mail_failure_fatal testEnvSmtpFail Effects.empty "ops@example.com" "Deployment Log"
    "Please find the attached deployment log." "/tmp/x.txt" testBody testSigOk testData
    { number := 42, headRef := "feature-x", merged := none }
    rfl testSig_valid rfl (Or.inl rfl)

/-- C6: a comment post answered with a status other than 201 appends a log
line and notify_stakeholders still returns normally with the comment
recorded; and the handler response is a function of everything but the
comment statuses, so comment delivery failure never fails the request. -/
theorem C6_comment_failure_nonfatal (env : Env) (eff : Effects)
    (url msg tok : String) (details : Option Details) (f g : Nat → Nat)
    (rawBody : List Nat) (sig : Option String) (data : Payload)
    (h : env.commentStatus eff.comments.length ≠ 201) :
    (notify_stakeholders env eff url msg tok details).loggedErrors
        = eff.loggedErrors ++ ["Failed to comment on PR"]
    ∧ (notify_stakeholders env eff url msg tok details).comments
        = eff.comments ++ [⟨url, renderMessage msg details, tok⟩]
    ∧ (webhook { env with commentStatus := f } rawBody sig data).2
        = (webhook { env with commentStatus := g } rawBody sig data).2 := by
  refine ⟨?_, ?_, ?_⟩
  · simp [notify_stakeholders, h]
  · unfold notify_stakeholders
    simp only []
    split <;> rfl
  · unfold webhook
    have hf : ({ env with commentStatus := f } : Env).cfg = env.cfg := rfl
    have hg : ({ env with commentStatus := g } : Env).cfg = env.cfg := rfl
    rw [hf, hg]
    cases hv : verify_signature env.cfg.WEBHOOK_SECRET rawBody sig with
    | false => rfl
    | true =>
      cases data.pull_request with
      | none => rfl
      | some pr =>
        by_cases hd : deployActionTest data.action = true
        · simp only [hd, if_true]
          rw [(deploy_path_facts { env with commentStatus := f } pr.number
              data.repository_full_name pr.headRef data.installation_id).1,
            (deploy_path_facts { env with commentStatus := g } pr.number
              data.repository_full_name pr.headRef data.installation_id).1]
        · by_cases hcl : (data.action == some "closed") = true
          · simp only [hd, hcl, if_true, Bool.false_eq_true, if_false]
            rw [(cleanup_path_facts { env with commentStatus := f } pr.number
                data.repository_full_name pr.headRef data.installation_id).1,
              (cleanup_path_facts { env with commentStatus := g } pr.number
                data.repository_full_name pr.headRef data.installation_id).1]
          · simp [hd, hcl]

/-- C6 witness: a 404 comment response on the concrete fixtures, compared
against the all-201 environment. -/
theorem C6_comment_failure_nonfatal_witness :
    (notify_stakeholders testEnvComment404 Effects.empty "u" "m" "t" none).loggedErrors
        = Effects.empty.loggedErrors ++ ["Failed to comment on PR"]
    ∧ (notify_stakeholders testEnvComment404 Effects.empty "u" "m" "t" none).comments
        = Effects.empty.comments ++ [⟨"u", renderMessage "m" none, "t"⟩]
    ∧ (webhook { testEnvComment404 with commentStatus := fun _ => 404 }
          testBody testSigOk testData).2
      = (webhook { testEnvComment404 with commentStatus := fun _ => 201 }
          testBody testSigOk testData).2 :=
  C6_comment_failure_nonfatal testEnvComment404 Effects.empty "u" "m" "t" none
    (fun _ => 404) (fun _ => 201) testBody testSigOk testData (by decide)

/-- C3 (code bug): with exit 0 and both patterns in stdout, the extractions
succeed and the five all-Success rows are built with the extracted values
interpolated, but the runner then raises NameError instead of returning, so
the handler answers 500 and the deployment URL never reaches any posted
comment; the only comment ever posted is the start notice. -/
theorem C3_deploy_success_pattern_bug :
    extract_container_name outBoth = some "app-42"
    ∧ extract_deployment_url outBoth = some "http://host:8042"
    ∧ deployment_success_details "feature-x" (some "app-42") (some "http://host:8042")
        = [("Clone repository", ⟨"Success", "Repository cloned successfully."⟩),
           ("Checkout branch", ⟨"Success", "Checked out branch feature-x."⟩),
           ("Pull latest changes",
              ⟨"Success", "Pulled latest changes for branch feature-x."⟩),
           ("Build Docker image",
              ⟨"Success", "Docker image built successfully for container app-42."⟩),
           ("Run Docker container",
              ⟨"Success", "Container app-42 running at http://host:8042."⟩)]
    ∧ (webhook testEnv testBody testSigOk
        { action := some "opened", pull_request := some ⟨42, "feature-x", none⟩,
          repository_full_name := "org/app", installation_id := 5 }).2
        = ⟨"Deployment failed", 500⟩
    ∧ (webhook testEnv testBody testSigOk
        { action := some "opened", pull_request := some ⟨42, "feature-x", none⟩,
          repository_full_name := "org/app", installation_id := 5 }).1.comments.map
          Comment.body
        = ["Deployment started for this pull request."]
    ∧ (webhook testEnv testBody testSigOk
        { action := some "opened", pull_request := some ⟨42, "feature-x", none⟩,
          repository_full_name := "org/app", installation_id := 5 }).1.emails = [] := by
  have hw := webhook_valid_opened testEnv testBody testSigOk
    ⟨42, "feature-x", none⟩ "org/app" 5 testEnv_sig_valid
  refine ⟨by decide, by decide, by decide, ?_, ?_, ?_⟩ <;> rw [hw] <;> decide

/-- C4 (code bug): on non-zero exit the error text is written to the log
file and the single Failed row carrying it is built, but the runner then
raises NameError instead of returning the log path, so the handler answers
500, no failure notice is posted, and no email with the log is sent. -/
theorem C4_deploy_failure_bug :
    (run_deployment_script testEnvDeployFail Effects.empty "feature-x" 42).1.logWrites
        = [("/tmp/deployment_log_feature-x_42.txt",
            "Deployment script failed with error: boom")]
    ∧ deployment_failure_details "boom" = [("Deployment script", ⟨"Failed", "boom"⟩)]
    ∧ (run_deployment_script testEnvDeployFail Effects.empty "feature-x" 42).2
        = .error (.nameError "comment_url")
    ∧ (webhook testEnvDeployFail testBody testSigOk
        { action := some "opened", pull_request := some ⟨42, "feature-x", none⟩,
          repository_full_name := "org/app", installation_id := 5 }).2
        = ⟨"Deployment failed", 500⟩
    ∧ (webhook testEnvDeployFail testBody testSigOk
        { action := some "opened", pull_request := some ⟨42, "feature-x", none⟩,
          repository_full_name := "org/app", installation_id := 5 }).1.comments.map
          Comment.body
        = ["Deployment started for this pull request."]
    ∧ (webhook testEnvDeployFail testBody testSigOk
        { action := some "opened", pull_request := some ⟨42, "feature-x", none⟩,
          repository_full_name := "org/app", installation_id := 5 }).1.emails = [] := by
  have hw := webhook_valid_opened testEnvDeployFail testBody testSigOk
    ⟨42, "feature-x", none⟩ "org/app" 5 testSig_valid
  refine ⟨by decide, by decide,
    run_deployment_script_raises testEnvDeployFail Effects.empty "feature-x" 42,
    ?_, ?_, ?_⟩ <;> rw [hw] <;> decide

/-- C8 (code bug): two validly signed closed events differing only in the
merged field produce byte-identical behaviour, and the cleanup script does
run regardless of merge status; but the flow then stops at the NameError in
the cleanup runner, answering 500 with no token exchange, no Cleanup
completed comment, and no email. -/
theorem C8_cleanup_ignores_merged_bug :
    webhook testEnv testBody testSigOk
        { action := some "closed", pull_request := some ⟨42, "feature-x", some false⟩,
          repository_full_name := "org/app", installation_id := 5 }
      = webhook testEnv testBody testSigOk
        { action := some "closed", pull_request := some ⟨42, "feature-x", some true⟩,
          repository_full_name := "org/app", installation_id := 5 }
    ∧ (webhook testEnv testBody testSigOk
        { action := some "closed", pull_request := some ⟨42, "feature-x", some true⟩,
          repository_full_name := "org/app", installation_id := 5 }).1.scripts
        = [("./cleanup.sh", "feature-x", "42")]
    ∧ (webhook testEnv testBody testSigOk
        { action := some "closed", pull_request := some ⟨42, "feature-x", some true⟩,
          repository_full_name := "org/app", installation_id := 5 }).2
        = ⟨"Cleanup failed", 500⟩
    ∧ (webhook testEnv testBody testSigOk
        { action := some "closed", pull_request := some ⟨42, "feature-x", some true⟩,
          repository_full_name := "org/app", installation_id := 5 }).1.comments = []
    ∧ (webhook testEnv testBody testSigOk
        { action := some "closed", pull_request := some ⟨42, "feature-x", some true⟩,
          repository_full_name := "org/app", installation_id := 5 }).1.emails = []
    ∧ (webhook testEnv testBody testSigOk
        { action := some "closed", pull_request := some ⟨42, "feature-x", some true⟩,
          repository_full_name := "org/app", installation_id := 5 }).1.tokenCalls = 0 := by
  have h1 := webhook_valid_closed testEnv testBody testSigOk
    ⟨42, "feature-x", some false⟩ "org/app" 5 testEnv_sig_valid
  have h2 := webhook_valid_closed testEnv testBody testSigOk
    ⟨42, "feature-x", some true⟩ "org/app" 5 testEnv_sig_valid
  refine ⟨?_, ?_, ?_, ?_, ?_, ?_⟩
  · rw [h1, h2]
  · rw [h2]; decide
  · rw [h2]; decide
  · rw [h2]; decide
  · rw [h2]; decide
  · rw [h2]; decide

/-- C10 (code bug): the final-comment selection expression reads only
whether the returned deployment link is present, and an exit-0 run whose
stdout lacks the URL pattern extracts no link; but because the runner raises
NameError before returning, the selection is never reached on any input, the
handler answers 500, and no final comment at all is posted. -/
theorem C10_null_url_generic_notice_bug :
    deployment_message none = "Deployment failed. Please check the logs."
    ∧ deployment_message (some "http://host:8042")
        = "Deployment successful. [Deployed application](http://host:8042)."
    ∧ extract_deployment_url outNoUrl = none
    ∧ extract_container_name outNoUrl = some "app-42"
    ∧ (webhook testEnvNoUrl testBody testSigOk
        { action := some "opened", pull_request := some ⟨42, "feature-x", none⟩,
          repository_full_name := "org/app", installation_id := 5 }).2
        = ⟨"Deployment failed", 500⟩
    ∧ (webhook testEnvNoUrl testBody testSigOk
        { action := some "opened", pull_request := some ⟨42, "feature-x", none⟩,
          repository_full_name := "org/app", installation_id := 5 }).1.comments.map
          Comment.body
        = ["Deployment started for this pull request."] := by
  have hw := webhook_valid_opened testEnvNoUrl testBody testSigOk
    ⟨42, "feature-x", none⟩ "org/app" 5 testSig_valid
  refine ⟨by decide, by decide, by decide, by decide, ?_, ?_⟩ <;> rw [hw] <;> decide

end PrBot
